import Mathlib

/-!
Verification of the Terraform execution state machine of the
CloudShell-Terraform-Shell repository: a shallow embedding of the run
gatekeeper (`can_execute_run` / `can_destroy_run`), the command builders and
the subprocess wrapper of `TfProcExec`, the output sanitizer built on the
`DIRTY_CHARS` pattern, the tag-merge limit check, the staging-directory
cleanup walk of `TerraformShell`, and the execute workflow sequencing,
together with theorems settling the specification claims about them.
-/

namespace TfShell

/-- Status key constant, from constants.py. -/
def EXECUTE_STATUS : String := "EXECUTE_STATUS"

def DESTROY_STATUS : String := "DESTROY_STATUS"

def APPLY_PASSED : String := "APPLY_PASSED"

def APPLY_FAILED : String := "APPLY_FAILED"

def PLAN_FAILED : String := "PLAN_FAILED"

def INIT_FAILED : String := "INIT_FAILED"

def DESTROY_FAILED : String := "DESTROY_FAILED"

def DESTROY_PASSED : String := "DESTROY_PASSED"

def NONE : String := "NONE"

def INIT : String := "INIT"

def PLAN : String := "PLAN"

def APPLY : String := "APPLY"

def OUTPUT : String := "OUTPUT"

def DESTROY : String := "DESTROY"

/-- The message TfProcExec._run_tf_proc_with_command raises with on a
non-zero exit (the source uses this one string for every command). -/
def tf_exec_error_msg : String :=
  "Error during Terraform Plan. For more information please look at the logs."

/-- The ValueError message of TfProcExec.tag_terraform for a tag set over
the 50-entry platform limit. -/
def tag_limit_msg (n : Nat) : String :=
  "AWS and Azure have a limit of 50 tags per resource, you have " ++ toString n

/-! ## Output sanitizer

constants.py defines the raw pattern DIRTY_CHARS (a verbose regex): an ESC
byte followed by either a 7-bit C1 Fe byte other than CSI
(the class of at-sign to Z joined with backslash to underscore), or by a
CSI control sequence: open bracket, parameter bytes from 0 to question
mark, intermediate bytes from blank to slash, one final byte from at-sign
to tilde. The StringCleaner module applying
it is not among the staged files; its application is modelled from the
spec: get_clean_string removes every non-overlapping match of DIRTY_CHARS,
scanning left to right, as a substitution by the empty string does. The
three byte classes of the pattern are pairwise disjoint, so the scan
is deterministic and needs no backtracking. -/

/-- The first alternative of DIRTY_CHARS: a C1 Fe byte other than CSI. -/
def isFeByte (c : Char) : Bool := ('@' ≤ c && c ≤ 'Z') || ('\\' ≤ c && c ≤ '_')

/-- CSI parameter byte class of DIRTY_CHARS. -/
def isParamByte (c : Char) : Bool := '0' ≤ c && c ≤ '?'

/-- CSI intermediate byte class of DIRTY_CHARS. -/
def isInterByte (c : Char) : Bool := ' ' ≤ c && c ≤ '/'

/-- CSI final byte class of DIRTY_CHARS. -/
def isFinalByte (c : Char) : Bool := '@' ≤ c && c ≤ '~'

/-- Given the characters after an ESC byte, the remainder after the rest of
one DIRTY_CHARS match, or none when no match starts here. -/
def matchDirtyForm : List Char → Option (List Char)
  | [] => none
  | c :: cs =>
    if isFeByte c then some cs
    else if c = '[' then
      match (cs.dropWhile isParamByte).dropWhile isInterByte with
      | [] => none
      | f :: rest => if isFinalByte f then some rest else none
    else none

/-- One left-to-right pass removing every non-overlapping DIRTY_CHARS match.
The fuel argument only bounds the recursion; each step consumes at least one
character, so fuel equal to the length of the list is never exhausted. -/
def dropDirtyF : Nat → List Char → List Char
  | 0, cs => cs
  | _ + 1, [] => []
  | fuel + 1, c :: cs =>
    if c = '\x1B' then
      match matchDirtyForm cs with
      | some rest => dropDirtyF fuel rest
      | none => c :: dropDirtyF fuel cs
    else c :: dropDirtyF fuel cs

/-- Modelled from the spec: StringCleaner.get_clean_string substitutes every
match of the DIRTY_CHARS pattern of constants.py by the empty string. -/
def get_clean_string (s : String) : String :=
  String.mk (dropDirtyF s.data.length s.data)

/-- Whether a string holds the ESC byte that every DIRTY_CHARS match starts
with; a string without it holds no terminal escape sequence. -/
def has_escape (s : String) : Bool := s.data.any (fun c => c = '\x1B')

/-! ## Command vectors and the subprocess wrapper -/

/-- A Terraform input variable: a name/value pair from the attribute mapping
or the free-form Terraform Inputs block. -/
structure Variable where
  name : String
  value : String
deriving DecidableEq

/-- Captured outcome of one external process: its exit code and combined
stdout+stderr text. -/
structure ProcResult where
  exitCode : Nat
  output : String
deriving DecidableEq

/-- os.path.join for a relative second component on a posix path: keep a
trailing separator of the first component, otherwise insert one. -/
def path_join (a b : String) : String :=
  if a = "" then b
  else if a.data.getLast? = some '/' then a ++ b
  else a ++ "/" ++ b

/-- The argument vector TfProcExec._run_tf_proc_with_command builds: the
binary path joined from the working directory and the literal name
terraform.exe, followed by the subcommand and flags. -/
def tform_command (workingdir : String) (cmd : List String) : List String :=
  path_join workingdir "terraform.exe" :: cmd

/-- The -var flags built from a variable list, two arguments per variable. -/
def var_flags (vars : List Variable) : List String :=
  vars.flatMap (fun v => ["-var", v.name ++ "=" ++ v.value])

/-- The -backend-config flags init_terraform appends for each backend
secret key/value pair. -/
def backend_flags (m : List (String × String)) : List String :=
  m.map (fun kv => "-backend-config=" ++ kv.1 ++ "=" ++ kv.2)

/-- The init subcommand vector of TfProcExec.init_terraform. -/
def init_cmd (backend_vars : List (String × String)) : List String :=
  ["init", "-no-color"] ++ backend_flags backend_vars

/-- The plan subcommand vector of TfProcExec.plan_terraform. -/
def plan_cmd (vars : List Variable) : List String :=
  ["plan", "-out", "planfile", "-input=false", "-no-color"] ++ var_flags vars

/-- The apply subcommand vector of TfProcExec.apply_terraform. -/
def apply_cmd : List String := ["apply", "--auto-approve", "-no-color", "planfile"]

/-- The destroy subcommand vector of TfProcExec.destroy_terraform. -/
def destroy_cmd (vars : List Variable) : List String :=
  ["destroy", "-auto-approve", "-no-color"] ++ var_flags vars

/-- The output subcommand vector of TfProcExec.save_terraform_outputs. -/
def output_cmd : List String := ["output", "-json"]

/-- The error taxonomy of the workflows: TerraformExecutionError carries a
message and, when output was captured, the sanitized text as its detail;
attributeError stands for Python's AttributeError, valueError for
ValueError, jsonError for a JSON parse failure, guardError for the plain
Exception raised when a gate refuses a run, and outOfFuel marks that the
unbounded cleanup loop did not finish within the fuel the model granted. -/
inductive TfError where
  | executionError (message : String) (detail : Option String)
  | attributeError (message : String)
  | valueError (message : String)
  | jsonError (message : String)
  | guardError (message : String)
  | outOfFuel
deriving DecidableEq

/-- The success/failure classification of _run_tf_proc_with_command given
the finished process: exit 0 returns the raw captured output; a non-zero
exit raises TerraformExecutionError carrying the sanitized output as its
detail. -/
def run_subprocess (p : ProcResult) : Except TfError String :=
  if p.exitCode = 0 then .ok p.output
  else .error (.executionError tf_exec_error_msg (some (get_clean_string p.output)))

/-! ## Run gatekeeper -/

/-- TfProcExec.can_execute_run over the two stored status strings. -/
def can_execute_run (execute_status destroy_status : String) : Bool :=
  if execute_status ∈ [APPLY_FAILED] then false
  else if destroy_status ∈ [DESTROY_FAILED] ∧ execute_status = APPLY_PASSED then false
  else true

/-- TfProcExec.can_destroy_run over the stored execution status string. -/
def can_destroy_run (execute_status : String) : Bool :=
  if execute_status ∉ [APPLY_PASSED, APPLY_FAILED] then false
  else true

/-! ## Python dict model for the tag merge

A Python dict is an association list with pairwise distinct keys; update
keeps the position of an existing key and appends a new one, and the
double-splat merge of tag_terraform folds the second dict's pairs into the
first, so a later value overrides on key collision. -/

def keys (d : List (String × String)) : List String := d.map Prod.fst

/-- Lookup in the dict model: the value at the first pair holding the key. -/
def dlookup : List (String × String) → String → Option String
  | [], _ => none
  | p :: d, k => if p.1 = k then some p.2 else dlookup d k

/-- Single-key dict update: overwrite in place or append at the end. -/
def dictInsert (d : List (String × String)) (k v : String) : List (String × String) :=
  if k ∈ keys d then d.map (fun p => if p.1 = k then (k, v) else p)
  else d ++ [(k, v)]

/-- The double-splat merge of two dicts, second over first. -/
def dictMerge (a b : List (String × String)) : List (String × String) :=
  b.foldl (fun d p => dictInsert d p.1 p.2) a

/-! ## Staging-directory cleanup walk -/

/-- The test of TerraformShell._delete_local_temp_dir on one directory
listing: exactly two entries, one named REPO and one named repo.zip. -/
def tmpCheck (l : List String) : Bool :=
  (l.length == 2) && l.contains "REPO" && l.contains "repo.zip"

/-- Split a character list at every slash, the accumulator holding the
current segment reversed. -/
def split_segments : List Char → List Char → List String
  | [], acc => [String.mk acc.reverse]
  | c :: cs, acc =>
    if c = '/' then String.mk acc.reverse :: split_segments cs []
    else split_segments cs (c :: acc)

/-- An absolute posix path as its list of nonempty segments. -/
def path_segments (p : String) : List String :=
  (split_segments p.data []).filter (fun s => !(s == ""))

/-- Iterated parent of a segment path; the parent of the root is the root,
as pathlib has it. -/
def parentIter : Nat → List String → List String
  | 0, p => p
  | n + 1, p => parentIter n p.dropLast

/-- The upward while-loop of _delete_local_temp_dir: look at the listing of
the parent, stop there when it is the staging root, otherwise step up. The
fuel bounds the unrolling of the unbounded source loop; none means the loop
has not finished within the granted fuel. -/
def walkLoop (fs : List String → List String) : Nat → List String → Option (List String)
  | 0, _ => none
  | fuel + 1, p =>
    if tmpCheck (fs p.dropLast) then some p.dropLast
    else walkLoop fs fuel p.dropLast

/-- TerraformShell._delete_local_temp_dir: walk upward from the working
directory; on success the found staging root is handed to rmtree and the
stored working-directory path is set to the empty string. -/
def delete_local_temp_dir (fs : List String → List String) (fuel : Nat) (wd : String) :
    Option (List String × String) :=
  (walkLoop fs fuel (path_segments wd)).map (fun a => (a, ""))

/-! ## The execute workflow

TerraformShell.execute_terraform gates on can_execute_run and then runs
init, tag, plan, apply and save-outputs in order, each step persisting a
status transition on failure and re-raising; the external collaborators
(subprocess, attribute store, tagging, JSON parsing, filesystem listing)
enter the model as fields of an environment record. -/

/-- A Python value _init_backend_config can evaluate to: the dict of backend
secret variables, the bare string its absent-attribute branch returns, or
the implicit None of its present-but-falsy branch. -/
inductive PyVal where
  | pdict (m : List (String × String))
  | pstr (s : String)
  | pnone
deriving DecidableEq

/-- The external collaborators and inputs of one workflow run. -/
structure TfEnv where
  /-- The Remote State Provider attribute: none when absent, its string
  value when present. -/
  remote_state_provider : Option String
  /-- What BackendHandler.get_backend_secret_vars returns (external). -/
  backend_secret_vars : List (String × String)
  /-- The Apply Tags attribute read by tag_terraform. -/
  apply_tags : Bool
  /-- The custom-tag inputs (external attribute parsing). -/
  custom_tags : List (String × String)
  /-- The default tags of TagsManager (external). -/
  default_tags : List (String × String)
  /-- Variables from attribute mapping (external). -/
  var_attr_vars : List Variable
  /-- Variables from the Terraform Inputs attribute (external). -/
  input_attr_vars : List Variable
  /-- The external subprocess: the outcome for each argument vector. -/
  proc : List String → ProcResult
  /-- Whether json.loads plus parse_and_save_outputs succeeds (external). -/
  output_parses : Bool
  /-- os.listdir (external filesystem), on segment paths. -/
  fs : List String → List String
  /-- Fuel granted to the unbounded cleanup loop of the model. -/
  walk_fuel : Nat

/-- The variables every command assembles: the attribute-mapped list
extended by the Terraform Inputs list, in that order. -/
def tf_vars (env : TfEnv) : List Variable :=
  env.var_attr_vars ++ env.input_attr_vars

/-- TfProcExec._init_backend_config: a present truthy attribute yields the
backend secret dict, a present falsy one falls through to None, an absent
one returns the empty string. -/
def init_backend_config (env : TfEnv) : PyVal :=
  match env.remote_state_provider with
  | some remote_state_provider =>
      if remote_state_provider ≠ "" then .pdict env.backend_secret_vars else .pnone
  | none => .pstr ""

/-- The flag-building loop at the top of init_terraform: iterate over
backend_config_vars.keys(), which is an AttributeError unless the value is
a dict. -/
def init_flags : PyVal → Except String (List String)
  | .pdict m => .ok (init_cmd m)
  | .pstr _ => .error "AttributeError: str object has no attribute keys"
  | .pnone => .error "AttributeError: NoneType object has no attribute keys"

/-- TerraformShell._using_remote_state: the truthiness of the Remote State
Provider attribute. -/
def using_remote_state (env : TfEnv) : Bool :=
  match env.remote_state_provider with
  | some s => !(s == "")
  | none => false

/-- The two status slots and the stored working directory of the sandbox
data store. -/
structure SandboxData where
  execute_status : String
  destroy_status : String
  tf_working_dir : String
deriving DecidableEq

/-- A workflow state: the persisted sandbox data, the ordered record of
set_status writes, and the ordered record of commands handed to the
subprocess wrapper. -/
structure WfState where
  sb : SandboxData
  writes : List (String × String)
  stepsRun : List String
deriving DecidableEq

/-- A fresh workflow state over given statuses and working directory. -/
def mkState (e d wd : String) : WfState :=
  { sb := { execute_status := e, destroy_status := d, tf_working_dir := wd },
    writes := [], stepsRun := [] }

/-- SandboxDataHandler.set_status: overwrite the addressed slot and record
the write. -/
def set_status (key value : String) (st : WfState) : WfState :=
  { st with
    sb := { st.sb with
      execute_status := if key = EXECUTE_STATUS then value else st.sb.execute_status,
      destroy_status := if key = DESTROY_STATUS then value else st.sb.destroy_status },
    writes := st.writes ++ [(key, value)] }

/-- TfProcExec._run_tf_proc_with_command inside a workflow: build the full
argument vector from the stored working directory, invoke the external
process, record the command, and classify the outcome. -/
def run_tf_proc (env : TfEnv) (cmd : List String) (command : String) (st : WfState) :
    Except (TfError × WfState) (String × WfState) :=
  let st' := { st with stepsRun := st.stepsRun ++ [command] }
  match run_subprocess (env.proc (tform_command st.sb.tf_working_dir cmd)) with
  | .ok out => .ok (out, st')
  | .error e => .error (e, st')

/-- TfProcExec.init_terraform: build the backend flags (outside the try
block, so a non-dict backend value raises before anything runs), then run
init; a failure inside the try block persists INIT_FAILED and re-raises. -/
def init_terraform (env : TfEnv) (st : WfState) : Except (TfError × WfState) WfState :=
  match init_flags (init_backend_config env) with
  | .error msg => .error (.attributeError msg, st)
  | .ok vars =>
    match run_tf_proc env vars INIT st with
    | .ok (_, st') => .ok st'
    | .error (e, st') => .error (e, set_status EXECUTE_STATUS INIT_FAILED st')

/-- TfProcExec.tag_terraform: skip when tag application is disabled;
otherwise merge the custom tags under the default tags and raise ValueError
over 50 entries; applying the tags is external. -/
def tag_terraform (env : TfEnv) (st : WfState) : Except (TfError × WfState) WfState :=
  if env.apply_tags = false then .ok st
  else
    let tags_dict := dictMerge env.custom_tags env.default_tags
    if tags_dict.length > 50 then
      .error (.valueError (tag_limit_msg tags_dict.length), st)
    else .ok st

/-- TfProcExec.plan_terraform: run plan with the assembled -var flags; a
failure persists PLAN_FAILED and re-raises. -/
def plan_terraform (env : TfEnv) (st : WfState) : Except (TfError × WfState) WfState :=
  match run_tf_proc env (plan_cmd (tf_vars env)) PLAN st with
  | .ok (_, st') => .ok st'
  | .error (e, st') => .error (e, set_status EXECUTE_STATUS PLAN_FAILED st')

/-- TfProcExec.apply_terraform: run apply against the plan artifact; success
persists APPLY_PASSED, failure persists APPLY_FAILED and re-raises. -/
def apply_terraform (env : TfEnv) (st : WfState) : Except (TfError × WfState) WfState :=
  match run_tf_proc env apply_cmd APPLY st with
  | .ok (_, st') => .ok (set_status EXECUTE_STATUS APPLY_PASSED st')
  | .error (e, st') => .error (e, set_status EXECUTE_STATUS APPLY_FAILED st')

/-- TfProcExec.save_terraform_outputs: run output -json (not logged), then
parse and hand over; any failure re-raises without a status write. -/
def save_terraform_outputs (env : TfEnv) (st : WfState) :
    Except (TfError × WfState) WfState :=
  match run_tf_proc env output_cmd OUTPUT st with
  | .ok (_, st') =>
      if env.output_parses then .ok st'
      else .error (.jsonError "Error occurred while trying to parse Terraform outputs", st')
  | .error (e, st') => .error (e, st')

/-- The message of the plain Exception execute_terraform raises when the
gatekeeper refuses the run. -/
def execute_blocked_msg : String :=
  "Execution is not enabled due to either failed previous Execution (*Try Destroy first) or Successfully executed previously without successfully destroying it first"

/-- TerraformShell.execute_terraform: gate on can_execute_run, then init,
tag, plan, apply, save outputs, and, when a remote state backend is in use,
delete the local staging directory (clearing the stored working-directory
path). -/
def execute_terraform (env : TfEnv) (st : WfState) : Except (TfError × WfState) WfState :=
  if can_execute_run st.sb.execute_status st.sb.destroy_status then
    match init_terraform env st with
    | .error r => .error r
    | .ok st1 =>
      match tag_terraform env st1 with
      | .error r => .error r
      | .ok st2 =>
        match plan_terraform env st2 with
        | .error r => .error r
        | .ok st3 =>
          match apply_terraform env st3 with
          | .error r => .error r
          | .ok st4 =>
            match save_terraform_outputs env st4 with
            | .error r => .error r
            | .ok st5 =>
              if using_remote_state env then
                match delete_local_temp_dir env.fs env.walk_fuel st5.sb.tf_working_dir with
                | some (_, newwd) =>
                    .ok { st5 with sb := { st5.sb with tf_working_dir := newwd } }
                | none => .error (.outOfFuel, st5)
              else .ok st5
  else .error (.guardError execute_blocked_msg, st)

/-- The state a finished run leaves behind, whether it returned or raised. -/
def finalState : Except (TfError × WfState) WfState → WfState
  | .ok st => st
  | .error (_, st) => st

/-! ## Concrete fixtures used by the closed witness theorems -/

/-- A baseline environment: remote backend configured, tags disabled, no
variables, every process succeeding, an empty filesystem. -/
def baseEnv : TfEnv :=
  { remote_state_provider := some "azure backend"
    backend_secret_vars := [("access_key", "secret")]
    apply_tags := false
    custom_tags := []
    default_tags := []
    var_attr_vars := []
    input_attr_vars := []
    proc := fun _ => { exitCode := 0, output := "ok" }
    output_parses := true
    fs := fun _ => []
    walk_fuel := 3 }

/-- A subprocess table whose apply invocation exits 1 with colored output
while every other command exits 0. -/
def procApplyFails : List String → ProcResult := fun argv =>
  if "apply" ∈ argv then { exitCode := 1, output := "\x1B[31mapply boom" }
  else { exitCode := 0, output := "ok" }

/-- Environment of the apply-failure scenario witness. -/
def envApplyFails : TfEnv := { baseEnv with proc := procApplyFails }

/-- Environment with the Remote State Provider attribute absent. -/
def envAbsent : TfEnv := { baseEnv with remote_state_provider := none }

/-- Environment with the Remote State Provider attribute present but blank. -/
def envBlank : TfEnv := { baseEnv with remote_state_provider := some "" }

/-- Fifty distinct default tags. -/
def d50 : List (String × String) := (List.range 50).map (fun i => (toString i, "v"))

/-- Fifty-one distinct default tags. -/
def d51 : List (String × String) := (List.range 51).map (fun i => (toString i, "v"))

/-- Environment whose tag merge yields exactly 50 entries. -/
def env50 : TfEnv := { baseEnv with apply_tags := true, default_tags := d50 }

/-- Environment whose tag merge yields 51 entries. -/
def env51 : TfEnv := { baseEnv with apply_tags := true, default_tags := d51 }

/-- A filesystem whose staging root sits two levels above the working
directory of the cleanup witness. -/
def fsStaging : List String → List String := fun p =>
  if p = ["tmp", "xyz"] then ["REPO", "repo.zip"] else []

/-! ## Helper lemmas -/

theorem dropDirtyF_no_esc (fuel : Nat) :
    ∀ cs : List Char, (∀ c ∈ cs, ¬ c = '\x1B') → dropDirtyF fuel cs = cs := by
  induction fuel with
  | zero => intro cs _; rfl
  | succ n ih =>
    intro cs h
    cases cs with
    | nil => rfl
    | cons c cs' =>
      have hc : ¬ c = '\x1B' := h c (List.mem_cons_self c cs')
      rw [dropDirtyF, if_neg hc, ih cs' (fun x hx => h x (List.mem_cons_of_mem c hx))]

theorem get_clean_string_no_esc (s : String) (h : has_escape s = false) :
    get_clean_string s = s := by
  obtain ⟨cs⟩ := s
  have h' : ∀ c ∈ cs, ¬ c = '\x1B' := by
    intro c hc
    have := List.any_eq_false.mp h c hc
    simpa using this
  show String.mk (dropDirtyF cs.length cs) = String.mk cs
  rw [dropDirtyF_no_esc cs.length cs h']

/-! ## Claim theorems -/

/-- C1: over every pair of stored status strings, can_execute_run returns
false exactly when the execution status is APPLY_FAILED or the destroy
status is DESTROY_FAILED while the execution status is APPLY_PASSED (so it
returns true for every other combination, the initial NONE/NONE pair
included), and can_destroy_run returns true exactly when the execution
status is APPLY_PASSED or APPLY_FAILED. -/
theorem c1_gatekeeper (e d : String) :
    (can_execute_run e d = false ↔
      (e = APPLY_FAILED ∨ (d = DESTROY_FAILED ∧ e = APPLY_PASSED)))
    ∧ (can_destroy_run e = true ↔ (e = APPLY_PASSED ∨ e = APPLY_FAILED))
    ∧ can_execute_run NONE NONE = true := by
  refine ⟨?_, ?_, by decide⟩
  · unfold can_execute_run
    split_ifs with h1 h2 <;> simp_all
  · unfold can_destroy_run
    split_ifs with h <;> simp_all

/-- C10: when the stored execution status is INIT_FAILED or PLAN_FAILED
(statuses the sequencer writes on init or plan failure), can_execute_run
returns true whatever the destroy status, so such a run may be retried,
while can_destroy_run returns false for both. -/
theorem c10_intermediate_statuses (d : String) :
    can_execute_run INIT_FAILED d = true ∧ can_execute_run PLAN_FAILED d = true
    ∧ can_destroy_run INIT_FAILED = false ∧ can_destroy_run PLAN_FAILED = false := by
  refine ⟨?_, ?_, by decide, by decide⟩ <;>
  · unfold can_execute_run
    rw [if_neg (by decide), if_neg (fun h => absurd h.2 (by decide))]

/-- C3 (amended): every subprocess argument vector begins with the working
directory joined to the literal executable name terraform.exe, followed by
the subcommand; the flags of INIT, PLAN, APPLY and DESTROY include
-no-color, but the OUTPUT vector is exactly output -json and carries no
-no-color flag. -/
theorem c3_command_vectors (wd : String) (b : List (String × String))
    (vars : List Variable) :
    tform_command wd (init_cmd b) = path_join wd "terraform.exe" :: init_cmd b
    ∧ (init_cmd b).head? = some "init" ∧ "-no-color" ∈ init_cmd b
    ∧ (plan_cmd vars).head? = some "plan" ∧ "-no-color" ∈ plan_cmd vars
    ∧ apply_cmd.head? = some "apply" ∧ "-no-color" ∈ apply_cmd
    ∧ (destroy_cmd vars).head? = some "destroy" ∧ "-no-color" ∈ destroy_cmd vars
    ∧ tform_command wd output_cmd = [path_join wd "terraform.exe", "output", "-json"]
    ∧ "-no-color" ∉ output_cmd := by
  refine ⟨rfl, rfl, List.mem_append_left _ (by decide), rfl,
    List.mem_append_left _ (by decide), rfl, by decide, rfl,
    List.mem_append_left _ (by decide), rfl, by decide⟩

/-- C3 counterexample: the OUTPUT command the sequencer runs is exactly
output -json, whose flags do not include -no-color, refuting the claim that
the flags of every command include it. -/
theorem c3_output_no_color_cex :
    output_cmd = ["output", "-json"] ∧ output_cmd.contains "-no-color" = false := by
  decide

/-- C4: the subprocess wrapper returns the captured combined output on exit
code 0, and on a non-zero exit raises TerraformExecutionError whose detail
is the sanitized captured output. -/
theorem c4_process_runner (p : ProcResult) :
    (p.exitCode = 0 → run_subprocess p = .ok p.output)
    ∧ (p.exitCode ≠ 0 →
        run_subprocess p =
          .error (.executionError tf_exec_error_msg (some (get_clean_string p.output)))) := by
  constructor <;> intro h <;> simp [run_subprocess, h]

/-- C4 witness: a process exiting 0 with output all good returns that
output; a process exiting 1 with red-colored output raises with the
color-stripped text as detail. -/
theorem c4_process_runner_witness :
    run_subprocess { exitCode := 0, output := "all good" } = .ok "all good"
    ∧ run_subprocess { exitCode := 1, output := "\x1B[31mboom" } =
        .error (.executionError tf_exec_error_msg (some "boom")) := by
  refine ⟨(c4_process_runner { exitCode := 0, output := "all good" }).1 rfl, ?_⟩
  have h2 := (c4_process_runner { exitCode := 1, output := "\x1B[31mboom" }).2 (by decide)
  rw [h2]
  rfl

/-- C2 (code bug): with the Remote State Provider attribute absent,
_init_backend_config returns the bare string rather than an empty mapping,
and with it present but blank it falls through to None; in both cases
init_terraform's iteration over backend_config_vars.keys() raises an
AttributeError before any terraform process runs, instead of proceeding
normally with no -backend-config flags. -/
theorem c2_backend_config_bug :
    init_backend_config envAbsent = .pstr ""
    ∧ init_backend_config envBlank = .pnone
    ∧ init_terraform envAbsent (mkState NONE NONE "/wd") =
        .error (.attributeError "AttributeError: str object has no attribute keys",
                mkState NONE NONE "/wd")
    ∧ init_terraform envBlank (mkState NONE NONE "/wd") =
        .error (.attributeError "AttributeError: NoneType object has no attribute keys",
                mkState NONE NONE "/wd")
    ∧ (mkState NONE NONE "/wd").stepsRun = [] :=
  ⟨rfl, rfl, rfl, rfl, rfl⟩

/-- C8 (amended): the sanitizer leaves any string without the ESC byte
unchanged, and cleaning twice equals cleaning once for every string whose
cleaned result holds no ESC byte; unrestricted idempotence fails, since
removing a match can splice the surrounding text into a new escape
sequence. -/
theorem c8_sanitizer :
    (∀ s : String, has_escape s = false → get_clean_string s = s)
    ∧ (∀ s : String, has_escape (get_clean_string s) = false →
        get_clean_string (get_clean_string s) = get_clean_string s) :=
  ⟨get_clean_string_no_esc, fun _ h => get_clean_string_no_esc _ h⟩

/-- C8 counterexample: cleaning the concrete string ESC [ ESC A m removes
the inner two-byte escape, leaving ESC [ m, a fresh CSI sequence that a
second cleaning removes entirely, so clean applied twice differs from clean
applied once. -/
theorem c8_idempotence_cex :
    get_clean_string "\x1B[\x1BAm" = "\x1B[m"
    ∧ get_clean_string (get_clean_string "\x1B[\x1BAm") = ""
    ∧ (get_clean_string (get_clean_string "\x1B[\x1BAm") ==
        get_clean_string "\x1B[\x1BAm") = false := by
  decide

/-- C8 witness: a plain string is returned unchanged, and a string whose
single escape sequence is removed cleanly is a fixed point of a second
cleaning. -/
theorem c8_sanitizer_witness :
    get_clean_string "plain text" = "plain text"
    ∧ get_clean_string (get_clean_string "\x1B[31mred") = get_clean_string "\x1B[31mred" :=
  ⟨c8_sanitizer.1 "plain text" (by decide), c8_sanitizer.2 "\x1B[31mred" (by decide)⟩

theorem keys_map_update (d : List (String × String)) (k v : String) :
    keys (d.map (fun p => if p.1 = k then (k, v) else p)) = keys d := by
  induction d with
  | nil => rfl
  | cons p d ih =>
    simp only [keys, List.map_cons] at ih ⊢
    rw [ih]
    by_cases hp : p.1 = k <;> simp [hp]

theorem mem_keys_dictInsert (d : List (String × String)) (k v k' : String) :
    k' ∈ keys (dictInsert d k v) ↔ k' ∈ keys d ∨ k' = k := by
  unfold dictInsert
  by_cases hk : k ∈ keys d
  · rw [if_pos hk, keys_map_update]
    constructor
    · exact Or.inl
    · rintro (h | rfl)
      · exact h
      · exact hk
  · rw [if_neg hk]
    simp [keys]

theorem keys_dictInsert_nodup (d : List (String × String)) (k v : String)
    (h : (keys d).Nodup) : (keys (dictInsert d k v)).Nodup := by
  unfold dictInsert
  by_cases hk : k ∈ keys d
  · rw [if_pos hk, keys_map_update]; exact h
  · rw [if_neg hk]
    have : keys (d ++ [(k, v)]) = keys d ++ [k] := by simp [keys]
    rw [this]
    simp [List.nodup_append, h, hk]

theorem dlookup_map_update_ne (d : List (String × String)) (k v k' : String)
    (h : k' ≠ k) :
    dlookup (d.map (fun p => if p.1 = k then (k, v) else p)) k' = dlookup d k' := by
  induction d with
  | nil => rfl
  | cons p d ih =>
    by_cases hp : p.1 = k
    · simp only [List.map_cons, if_pos hp, dlookup]
      rw [if_neg (fun e => h e.symm), if_neg (fun e => h (hp ▸ e).symm), ih]
    · simp only [List.map_cons, if_neg hp, dlookup, ih]

theorem dlookup_map_update_self (d : List (String × String)) (k v : String)
    (h : k ∈ keys d) :
    dlookup (d.map (fun p => if p.1 = k then (k, v) else p)) k = some v := by
  induction d with
  | nil => simp [keys] at h
  | cons p d ih =>
    by_cases hp : p.1 = k
    · simp [List.map_cons, if_pos hp, dlookup]
    · simp only [List.map_cons, if_neg hp, dlookup]
      apply ih
      simp only [keys, List.map_cons, List.mem_cons] at h
      rcases h with h | h
      · exact absurd h.symm hp
      · exact h

theorem dlookup_append_single_self (d : List (String × String)) (k v : String)
    (h : k ∉ keys d) : dlookup (d ++ [(k, v)]) k = some v := by
  induction d with
  | nil => simp [dlookup]
  | cons p d ih =>
    have hp : ¬ p.1 = k := by
      intro e
      exact h (by simp [keys, e])
    simp only [List.cons_append, dlookup, if_neg hp]
    apply ih
    intro hm
    exact h (by simp [keys] at hm ⊢; exact Or.inr hm)

theorem dlookup_append_single_ne (d : List (String × String)) (k v k' : String)
    (h : k' ≠ k) : dlookup (d ++ [(k, v)]) k' = dlookup d k' := by
  induction d with
  | nil =>
    have hkk : ¬ ((k, v).1 = k') := fun e => h (Eq.symm e)
    simp [dlookup, hkk]
  | cons p d ih =>
    simp only [List.cons_append, dlookup]
    split
    · rfl
    · exact ih

theorem dlookup_dictInsert_self (d : List (String × String)) (k v : String) :
    dlookup (dictInsert d k v) k = some v := by
  unfold dictInsert
  by_cases hk : k ∈ keys d
  · rw [if_pos hk]; exact dlookup_map_update_self d k v hk
  · rw [if_neg hk]; exact dlookup_append_single_self d k v hk

theorem dlookup_dictInsert_ne (d : List (String × String)) (k v k' : String)
    (h : k' ≠ k) : dlookup (dictInsert d k v) k' = dlookup d k' := by
  unfold dictInsert
  by_cases hk : k ∈ keys d
  · rw [if_pos hk]; exact dlookup_map_update_ne d k v k' h
  · rw [if_neg hk]; exact dlookup_append_single_ne d k v k' h

theorem dictMerge_cons (a : List (String × String)) (p : String × String)
    (b : List (String × String)) :
    dictMerge a (p :: b) = dictMerge (dictInsert a p.1 p.2) b := rfl

theorem dlookup_dictMerge_of_not_mem :
    ∀ (b a : List (String × String)) (k : String), k ∉ keys b →
      dlookup (dictMerge a b) k = dlookup a k := by
  intro b
  induction b with
  | nil => intro a k _; rfl
  | cons p b ih =>
    intro a k h
    simp only [keys, List.map_cons, List.mem_cons] at h
    push_neg at h
    rw [dictMerge_cons, ih _ _ h.2, dlookup_dictInsert_ne _ _ _ _ h.1]

theorem dlookup_dictMerge_right :
    ∀ (b a : List (String × String)) (k v : String), (keys b).Nodup →
      (k, v) ∈ b → dlookup (dictMerge a b) k = some v := by
  intro b
  induction b with
  | nil => intro a k v _ hm; simp at hm
  | cons p b ih =>
    intro a k v hnd hm
    have hnd' : p.1 ∉ keys b ∧ (keys b).Nodup := by
      simpa [keys, List.nodup_cons] using hnd
    rw [dictMerge_cons]
    rcases List.mem_cons.mp hm with rfl | hmem
    · rw [dlookup_dictMerge_of_not_mem b _ k hnd'.1]
      exact dlookup_dictInsert_self a k v
    · exact ih _ _ _ hnd'.2 hmem

theorem mem_keys_dictMerge :
    ∀ (b a : List (String × String)) (k : String),
      k ∈ keys (dictMerge a b) ↔ k ∈ keys a ∨ k ∈ keys b := by
  intro b
  induction b with
  | nil => intro a k; simp [dictMerge, keys]
  | cons p b ih =>
    intro a k
    rw [dictMerge_cons, ih, mem_keys_dictInsert]
    simp only [keys, List.map_cons, List.mem_cons]
    tauto

theorem keys_dictMerge_nodup :
    ∀ (b a : List (String × String)), (keys a).Nodup →
      (keys (dictMerge a b)).Nodup := by
  intro b
  induction b with
  | nil => intro a h; exact h
  | cons p b ih =>
    intro a h
    rw [dictMerge_cons]
    exact ih _ (keys_dictInsert_nodup a p.1 p.2 h)

/-- C7: the double-splat tag merge holds every key of the custom and the
default tag dicts, a default value wins on any key collision while a
custom-only key keeps its custom value, the merged dict's keys stay
pairwise distinct, and tag_terraform raises ValueError exactly when the
merged dict holds more than 50 entries. -/
theorem c7_tag_merge (custom default : List (String × String))
    (hc : (keys custom).Nodup) (hd : (keys default).Nodup) :
    (∀ k, k ∈ keys (dictMerge custom default) ↔ k ∈ keys custom ∨ k ∈ keys default)
    ∧ (keys (dictMerge custom default)).Nodup
    ∧ (∀ k v, (k, v) ∈ default → dlookup (dictMerge custom default) k = some v)
    ∧ (∀ k, k ∉ keys default → dlookup (dictMerge custom default) k = dlookup custom k)
    ∧ (∀ env st, env.custom_tags = custom → env.default_tags = default →
        env.apply_tags = true →
        tag_terraform env st =
          if (dictMerge custom default).length > 50 then
            .error (.valueError (tag_limit_msg (dictMerge custom default).length), st)
          else .ok st) := by
  refine ⟨fun k => mem_keys_dictMerge default custom k,
    keys_dictMerge_nodup default custom hc,
    fun k v h => dlookup_dictMerge_right default custom k v hd h,
    fun k h => dlookup_dictMerge_of_not_mem default custom k h,
    ?_⟩
  intro env st h1 h2 h3
  simp [tag_terraform, h1, h2, h3]

set_option maxRecDepth 40000 in
/-- C7 witness: the spec's concrete example merges the value 9 in at key b,
the merged key list is a b c, an environment producing 51 merged tags
raises the ValueError, and one producing 50 does not. -/
theorem c7_tag_merge_witness :
    dlookup (dictMerge [("a", "1"), ("b", "2")] [("b", "9"), ("c", "3")]) "b" = some "9"
    ∧ keys (dictMerge [("a", "1"), ("b", "2")] [("b", "9"), ("c", "3")]) = ["a", "b", "c"]
    ∧ tag_terraform env51 (mkState NONE NONE "/wd") =
        .error (.valueError (tag_limit_msg 51), mkState NONE NONE "/wd")
    ∧ tag_terraform env50 (mkState NONE NONE "/wd") = .ok (mkState NONE NONE "/wd") := by
  refine ⟨(c7_tag_merge [("a", "1"), ("b", "2")] [("b", "9"), ("c", "3")]
      (by decide) (by decide)).2.2.1 "b" "9" (by decide), by decide, ?_, ?_⟩
  · have h := (c7_tag_merge [] d51 (by decide) (by decide)).2.2.2.2
      env51 (mkState NONE NONE "/wd") rfl rfl rfl
    rw [h]
    have hl : (dictMerge [] d51).length = 51 := by decide
    rw [hl, if_pos (by norm_num)]
  · have h := (c7_tag_merge [] d50 (by decide) (by decide)).2.2.2.2
      env50 (mkState NONE NONE "/wd") rfl rfl rfl
    rw [h]
    have hl : (dictMerge [] d50).length = 50 := by decide
    rw [hl, if_neg (by norm_num)]

theorem walkLoop_finds (fs : List String → List String) :
    ∀ (k : Nat) (p : List String), tmpCheck (fs (parentIter (k + 1) p)) = true →
      ∃ j, j ≤ k ∧ walkLoop fs (k + 1) p = some (parentIter (j + 1) p)
        ∧ tmpCheck (fs (parentIter (j + 1) p)) = true := by
  intro k
  induction k with
  | zero =>
    intro p h
    have h0 : tmpCheck (fs p.dropLast) = true := h
    exact ⟨0, Nat.le_refl 0, by simp [walkLoop, h0, parentIter], h⟩
  | succ k ih =>
    intro p h
    by_cases h0 : tmpCheck (fs p.dropLast) = true
    · exact ⟨0, Nat.zero_le _, by simp [walkLoop, h0, parentIter], h0⟩
    · have h' : tmpCheck (fs (parentIter (k + 1) p.dropLast)) = true := h
      obtain ⟨j, hj, hw, hc⟩ := ih p.dropLast h'
      refine ⟨j + 1, Nat.succ_le_succ hj, ?_, hc⟩
      rw [walkLoop, if_neg (by simp [h0])]
      exact hw

theorem walkLoop_empty_none :
    ∀ (n : Nat) (p : List String), walkLoop (fun _ => []) n p = none := by
  intro n
  induction n with
  | zero => intro p; rfl
  | succ n ih =>
    intro p
    rw [walkLoop, if_neg (by decide)]
    exact ih _

/-- C9 (amended): whenever some proper ancestor of the working directory
has a listing of exactly the two staging artifacts REPO and repo.zip, the
upward walk of _delete_local_temp_dir terminates at such an ancestor within
that depth, that ancestor is the directory handed to rmtree, and the stored
working-directory path is set to the empty string; with no such ancestor
the loop never terminates. -/
theorem c9_cleanup (fs : List String → List String) (wd : String) (k : Nat)
    (h : tmpCheck (fs (parentIter (k + 1) (path_segments wd))) = true) :
    ∃ fuel target, delete_local_temp_dir fs fuel wd = some (target, "")
      ∧ tmpCheck (fs target) = true
      ∧ ∃ j, j ≤ k ∧ target = parentIter (j + 1) (path_segments wd) := by
  obtain ⟨j, hj, hw, hc⟩ := walkLoop_finds fs k (path_segments wd) h
  exact ⟨k + 1, parentIter (j + 1) (path_segments wd),
    by simp [delete_local_temp_dir, hw], hc, j, hj, rfl⟩

/-- C9 counterexample: on a filesystem whose every listing is empty no
ancestor ever satisfies the staging-root test, and the concrete working
directory under it makes the walk loop forever — no amount of unrolling
fuel returns a result — refuting termination for every working-directory
path. -/
theorem c9_nontermination_cex :
    (∃ n, (walkLoop (fun _ => []) n ["home", "user"]).isSome = true) = False := by
  apply eq_false
  rintro ⟨n, hn⟩
  rw [walkLoop_empty_none] at hn
  simp at hn

/-- C9 witness: with the staging root two levels above a concrete working
directory, the walk finds it, hands it to rmtree and clears the stored
path. -/
theorem c9_cleanup_witness :
    ∃ fuel target, delete_local_temp_dir fsStaging fuel "/tmp/xyz/REPO/module" = some (target, "")
      ∧ tmpCheck (fsStaging target) = true
      ∧ ∃ j, j ≤ 1 ∧ target = parentIter (j + 1) (path_segments "/tmp/xyz/REPO/module") :=
  c9_cleanup fsStaging "/tmp/xyz/REPO/module" 1 (by decide)

/-- C5: in every execute run admitted by the gatekeeper in which init
succeeds, tagging is disabled, plan succeeds and the apply process exits
non-zero, the workflow raises the TerraformExecutionError of the apply
step carrying the sanitized apply output, the persisted execution status
ends as APPLY_FAILED, and the OUTPUT command is never handed to the
subprocess wrapper. -/
theorem c5_apply_failure (env : TfEnv) (e d wd : String)
    (hgate : can_execute_run e d = true)
    (hbc : init_backend_config env = .pdict env.backend_secret_vars)
    (hinit : (env.proc (tform_command wd (init_cmd env.backend_secret_vars))).exitCode = 0)
    (htag : env.apply_tags = false)
    (hplan : (env.proc (tform_command wd (plan_cmd (tf_vars env)))).exitCode = 0)
    (happly : (env.proc (tform_command wd apply_cmd)).exitCode ≠ 0) :
    ∃ st' : WfState,
      execute_terraform env (mkState e d wd) =
        .error (.executionError tf_exec_error_msg
          (some (get_clean_string (env.proc (tform_command wd apply_cmd)).output)), st')
      ∧ st'.sb.execute_status = APPLY_FAILED
      ∧ OUTPUT ∉ st'.stepsRun := by
  simp only [execute_terraform, mkState, hgate, if_true, init_terraform, hbc, init_flags,
    run_tf_proc, run_subprocess, tag_terraform, htag, plan_terraform, apply_terraform,
    hinit, hplan, happly, if_false, List.nil_append, set_status]
  refine ⟨_, rfl, rfl, ?_⟩
  show OUTPUT ∉ ([INIT] ++ [PLAN] ++ [APPLY])
  decide

/-- C6: in every execute run from the initial NONE/NONE statuses in which
every subprocess succeeds, tagging is disabled and output parsing
succeeds, the state the workflow leaves behind has execution status
APPLY_PASSED and destroy status still NONE, and no step of the run wrote
to the destroy-status slot. -/
theorem c6_execute_success (env : TfEnv) (wd : String)
    (hall : ∀ argv, (env.proc argv).exitCode = 0)
    (hbc : init_backend_config env = .pdict env.backend_secret_vars)
    (htag : env.apply_tags = false)
    (hout : env.output_parses = true) :
    (finalState (execute_terraform env (mkState NONE NONE wd))).sb.execute_status = APPLY_PASSED
    ∧ (finalState (execute_terraform env (mkState NONE NONE wd))).sb.destroy_status = NONE
    ∧ ∀ w ∈ (finalState (execute_terraform env (mkState NONE NONE wd))).writes,
        w.1 ≠ DESTROY_STATUS := by
  have hgate : can_execute_run NONE NONE = true := by decide
  simp only [execute_terraform, mkState, hgate, if_true, init_terraform, hbc, init_flags,
    run_tf_proc, run_subprocess, tag_terraform, htag, plan_terraform, apply_terraform,
    save_terraform_outputs, hall, hout, if_false, List.nil_append, set_status]
  cases hu : using_remote_state env with
  | false =>
    refine ⟨rfl, rfl, ?_⟩
    show ∀ w ∈ [(EXECUTE_STATUS, APPLY_PASSED)], w.1 ≠ DESTROY_STATUS
    decide
  | true =>
    cases hdel : delete_local_temp_dir env.fs env.walk_fuel wd with
    | none =>
      refine ⟨rfl, rfl, ?_⟩
      show ∀ w ∈ [(EXECUTE_STATUS, APPLY_PASSED)], w.1 ≠ DESTROY_STATUS
      decide
    | some a =>
      obtain ⟨target, newwd⟩ := a
      refine ⟨rfl, rfl, ?_⟩
      show ∀ w ∈ [(EXECUTE_STATUS, APPLY_PASSED)], w.1 ≠ DESTROY_STATUS
      decide

/-- C5 witness: with the fixture subprocess table whose apply invocation
exits 1, the run from NONE/NONE ends raising the TerraformExecutionError
carrying the stripped apply output, with execution status APPLY_FAILED and
the OUTPUT step never invoked. -/
theorem c5_apply_failure_witness :
    ∃ st' : WfState,
      execute_terraform envApplyFails (mkState NONE NONE "/w") =
        .error (.executionError tf_exec_error_msg
          (some (get_clean_string (envApplyFails.proc (tform_command "/w" apply_cmd)).output)), st')
      ∧ st'.sb.execute_status = APPLY_FAILED
      ∧ OUTPUT ∉ st'.stepsRun :=
  c5_apply_failure envApplyFails NONE NONE "/w" (by decide) rfl (by decide) rfl
    (by decide) (by decide)

/-- C6 witness: with the baseline fixture environment every step succeeds
and the run from NONE/NONE leaves execution status APPLY_PASSED, destroy
status NONE, and no write to the destroy slot. -/
theorem c6_execute_success_witness :
    (finalState (execute_terraform baseEnv (mkState NONE NONE "/tmp/w"))).sb.execute_status
        = APPLY_PASSED
    ∧ (finalState (execute_terraform baseEnv (mkState NONE NONE "/tmp/w"))).sb.destroy_status
        = NONE
    ∧ ∀ w ∈ (finalState (execute_terraform baseEnv (mkState NONE NONE "/tmp/w"))).writes,
        w.1 ≠ DESTROY_STATUS :=
  c6_execute_success baseEnv "/tmp/w" (fun _ => rfl) rfl rfl rfl

end TfShell
